import Mathlib

/-!
Shallow embedding of the `xbmp` BMP decoder (`reader.go`) and verification of
the frozen specification claims.

Modelling conventions:
* A byte stream is a `List Nat` of byte values together with an absolute read
  position (`ByteStream`); `readN` mirrors `io.ReadFull`/`binary.Read`
  (success exactly when enough bytes remain, no partial reads survive).
* Machine integers are `Nat` (unsigned) or `Int` (Go `int32`/`int`), with
  explicit truncation (`% 256`, `% 65536`, `toInt32`) where Go converts.
* Go's `(image.Image, error)` multiple return is `Option Img × Option BmpError`.
-/

namespace Xbmp

/-- The error values `Decode` can produce.  `ioError` stands for any error
coming out of `binary.Read` / `io.ReadFull` (short read); the three others
are the decoder's own `errors.New` format errors. -/
inductive BmpError where
  | ioError
  | badSignature
  | badHeader
  | badBitDepth
deriving DecidableEq, Repr

/-- A byte stream with an absolute position: the model of the `io.Reader`
(plus `io.Seeker`) handed to `Decode`. -/
structure ByteStream where
  data : List Nat
  pos : Nat
deriving DecidableEq, Repr

/-- `io.ReadFull` / `binary.Read`: read exactly `n` bytes or fail. -/
def ByteStream.readN (s : ByteStream) (n : Nat) : Option (List Nat × ByteStream) :=
  if s.pos + n ≤ s.data.length then
    some ((s.data.drop s.pos).take n, ⟨s.data, s.pos + n⟩)
  else
    none

/-- The byte `k` positions after the current read position. -/
def ByteStream.byteAt (s : ByteStream) (k : Nat) : Nat :=
  s.data.getD (s.pos + k) 0

/-- `binary.LittleEndian.Uint16`. -/
def leU16 (b0 b1 : Nat) : Nat := b0 + b1 * 256

/-- `binary.LittleEndian.Uint32`. -/
def leU32 (b0 b1 b2 b3 : Nat) : Nat :=
  b0 + b1 * 256 + b2 * 65536 + b3 * 16777216

/-- Go's `int32(u)` for an unsigned 32-bit value `u`. -/
def toInt32 (n : Nat) : Int :=
  if n < 2147483648 then (n : Int) else (n : Int) - 4294967296

/-- `color.RGBA` / `color.RGBA64`: channel values are `Nat`s (bytes for the
8-bit images, 16-bit words for `RGBA64`). -/
structure Rgba where
  r : Nat
  g : Nat
  b : Nat
  a : Nat
deriving DecidableEq, Repr

/-- `FileHeader` (reader.go 19-24); the two signature bytes are kept
separately, the three `uint32` fields as `Nat`. -/
structure FileHeader where
  sig0 : Nat
  sig1 : Nat
  fileSize : Nat
  reserved : Nat
  dataOffset : Nat
deriving DecidableEq, Repr

/-- `InfoHeader` (reader.go 26-42).  Signed fields are `Int`, unsigned ones
`Nat`.  Fields the Go code never assigns stay at their zero value. -/
structure InfoHeader where
  size : Nat := 0
  width : Int := 0
  height : Int := 0
  planes : Nat := 0
  bitCount : Nat := 0
  compression : Nat := 0
  sizeImage : Nat := 0
  xPelsPerMeter : Int := 0
  yPelsPerMeter : Int := 0
  clrUsed : Nat := 0
  clrImportant : Nat := 0
  redMask : Nat := 0
  greenMask : Nat := 0
  blueMask : Nat := 0
  alphaMask : Nat := 0
deriving DecidableEq, Repr

/-- `image.Paletted`: row-major index buffer (stride = width) plus the
palette handed to `image.NewPaletted`. -/
structure PalettedImg where
  width : Nat
  height : Nat
  palette : List Rgba
  pix : List Nat
deriving DecidableEq, Repr

/-- `image.NewPaletted` over `Rect(0,0,w,h)`: zeroed index buffer. -/
def newPaletted (w h : Nat) (palette : List Rgba) : PalettedImg :=
  ⟨w, h, palette, List.replicate (w * h) 0⟩

/-- `(*image.Paletted).SetColorIndex`: bounds-checked write of the raw index
(no palette lookup involved). -/
def PalettedImg.setIndex (img : PalettedImg) (x y idx : Nat) : PalettedImg :=
  if x < img.width ∧ y < img.height then
    { img with pix := img.pix.set (y * img.width + x) idx }
  else img

/-- The palette index stored at `(x, y)`. -/
def PalettedImg.getIndex (img : PalettedImg) (x y : Nat) : Nat :=
  img.pix.getD (y * img.width + x) 0

/-- `image.RGBA` / `image.RGBA64`: row-major color buffer (stride = width);
both Go types have this shape, only the channel range differs. -/
structure PixBuf where
  width : Nat
  height : Nat
  pix : List Rgba
deriving DecidableEq, Repr

/-- `image.NewRGBA` / `image.NewRGBA64` over `Rect(0,0,w,h)`: zeroed buffer. -/
def newPixBuf (w h : Nat) : PixBuf :=
  ⟨w, h, List.replicate (w * h) ⟨0, 0, 0, 0⟩⟩

/-- `Set` / `SetRGBA64`: bounds-checked write of a color. -/
def PixBuf.setPx (img : PixBuf) (x y : Nat) (c : Rgba) : PixBuf :=
  if x < img.width ∧ y < img.height then
    { img with pix := img.pix.set (y * img.width + x) c }
  else img

/-- The color stored at `(x, y)`. -/
def PixBuf.getPx (img : PixBuf) (x y : Nat) : Rgba :=
  img.pix.getD (y * img.width + x) ⟨0, 0, 0, 0⟩

/-- The `image.Image` result of `Decode`: one of the three concrete image
types the decoder allocates. -/
inductive Img where
  | paletted : PalettedImg → Img
  | rgba64 : PixBuf → Img
  | rgba : PixBuf → Img
deriving DecidableEq, Repr

/-- A complete 16-bit bit-fields BMP byte stream (1×1, masks
`0xF800`/`0x07E0`/`0x001F`, single pixel word `0xFFFF`) used to evaluate the
amended claim C1 through the whole decoder. -/
def c1bytes : List Nat :=
  [66, 77, 0, 0, 0, 0, 0, 0, 0, 0, 70, 0, 0, 0] ++ [40, 0, 0, 0] ++ [1, 0, 0, 0] ++
  [1, 0, 0, 0] ++ [1, 0] ++ [16, 0] ++ [3, 0, 0, 0] ++ List.replicate 20 0 ++
  [0, 248, 0, 0, 224, 7, 0, 0, 31, 0, 0, 0, 0, 0, 0, 0] ++ [255, 255, 0, 0]

/-- A 1-bit indexed BMP byte stream (width 1, height 2, two palette entries)
whose pixel data holds only one of the two required 4-byte rows. -/
def c2bytes : List Nat :=
  [66, 77, 0, 0, 0, 0, 0, 0, 0, 0, 62, 0, 0, 0] ++ [40, 0, 0, 0] ++ [1, 0, 0, 0] ++
  [2, 0, 0, 0] ++ [1, 0] ++ [1, 0] ++ [0, 0, 0, 0] ++ List.replicate 20 0 ++
  [0, 0, 0, 0, 255, 255, 255, 0] ++ [128, 0, 0, 0]

/-- A complete 24-bit BMP byte stream with declared height −1 (top-down),
width 1, and one 4-byte pixel row `[3, 2, 1, 0]` present at the data offset. -/
def c3bytes : List Nat :=
  [66, 77, 0, 0, 0, 0, 0, 0, 0, 0, 54, 0, 0, 0] ++ [40, 0, 0, 0] ++ [1, 0, 0, 0] ++
  [255, 255, 255, 255] ++ [1, 0] ++ [24, 0] ++ [0, 0, 0, 0] ++ List.replicate 20 0 ++
  [3, 2, 1, 0]

/- ------------------------------------------------------------------
`maskShift` (reader.go lines 333-348).

The Go loops run on a `uint32`, halving the mask each iteration, so they
iterate at most 32 times; the embedding makes that bound explicit as a fuel
argument (structural recursion), which changes nothing for masks < 2^32.
------------------------------------------------------------------ -/

/-- First loop of `maskShift`: `for (mask&1) == 0 && mask != 0 { shift++; mask >>= 1 }`. -/
def shiftLoop : Nat → Nat → Nat → Nat × Nat
  | 0, mask, shift => (mask, shift)
  | fuel + 1, mask, shift =>
    if mask &&& 1 = 0 ∧ mask ≠ 0 then shiftLoop fuel (mask >>> 1) (shift + 1)
    else (mask, shift)

/-- Second loop of `maskShift`: `for (mask & 1) == 1 { bits++; mask >>= 1 }`. -/
def bitsLoop : Nat → Nat → Nat → Nat × Nat
  | 0, mask, bits => (mask, bits)
  | fuel + 1, mask, bits =>
    if mask &&& 1 = 1 then bitsLoop fuel (mask >>> 1) (bits + 1)
    else (mask, bits)

/-- `maskShift` (reader.go 333-348): position of the lowest set bit and the
number of contiguous set bits starting there; `(0, 0)` for a zero mask. -/
def maskShift (mask : Nat) : Nat × Nat :=
  if mask = 0 then (0, 0)
  else
    let p := shiftLoop 32 mask 0
    let q := bitsLoop 32 p.1 0
    (p.2, q.2)

/- ------------------------------------------------------------------
Palette (reader.go 116-135).
------------------------------------------------------------------ -/

/-- The entry count of `parsePalette` (reader.go 121-124):
`entries := 1 << info.BitCount; if info.ClrUsed > 0 { entries = int(info.ClrUsed) }`. -/
def paletteEntries (info : InfoHeader) : Nat :=
  if 0 < info.clrUsed then info.clrUsed else 1 <<< info.bitCount

/-- The read loop of `parsePalette` (reader.go 127-133): each entry is four
bytes blue, green, red, reserved; the reserved byte is dropped and alpha is
255. -/
def readPaletteEntries : Nat → ByteStream → Except BmpError (List Rgba × ByteStream)
  | 0, s => .ok ([], s)
  | n + 1, s =>
    match s.readN 4 with
    | none => .error .ioError
    | some (bgr, s1) =>
      match readPaletteEntries n s1 with
      | .error e => .error e
      | .ok (rest, s2) =>
        .ok (⟨bgr.getD 2 0, bgr.getD 1 0, bgr.getD 0 0, 255⟩ :: rest, s2)

/-- `parsePalette` (reader.go 116-135).  Go's `nil` palette is `[]`. -/
def parsePalette (s : ByteStream) (info : InfoHeader) :
    Except BmpError (List Rgba × ByteStream) :=
  if 8 < info.bitCount ∧ info.clrUsed = 0 then .ok ([], s)
  else readPaletteEntries (paletteEntries info) s

/- ------------------------------------------------------------------
Header parsing (reader.go 44-89).
------------------------------------------------------------------ -/

/-- `binary.Read(r, binary.LittleEndian, &fileHeader)` (reader.go 46): 14
bytes, little-endian packed struct. -/
def readFileHeader (s : ByteStream) : Except BmpError (FileHeader × ByteStream) :=
  match s.readN 14 with
  | none => .error .ioError
  | some (b, s1) =>
    .ok (⟨b.getD 0 0, b.getD 1 0,
          leU32 (b.getD 2 0) (b.getD 3 0) (b.getD 4 0) (b.getD 5 0),
          leU32 (b.getD 6 0) (b.getD 7 0) (b.getD 8 0) (b.getD 9 0),
          leU32 (b.getD 10 0) (b.getD 11 0) (b.getD 12 0) (b.getD 13 0)⟩, s1)

/-- The header-size tag read plus the `switch headerSize` of `Decode`
(reader.go 53-89): 12-byte core path, 40-byte info path, or format error. -/
def readInfoHeader (s : ByteStream) : Except BmpError (InfoHeader × ByteStream) :=
  match s.readN 4 with
  | none => .error .ioError
  | some (t, s1) =>
    let headerSize := leU32 (t.getD 0 0) (t.getD 1 0) (t.getD 2 0) (t.getD 3 0)
    if headerSize = 12 then
      -- BITMAPCOREHEADER: four uint16 fields; compression forced to biRGB.
      match s1.readN 8 with
      | none => .error .ioError
      | some (b, s2) =>
        .ok ({ size := 12,
               width := (leU16 (b.getD 0 0) (b.getD 1 0) : Int),
               height := (leU16 (b.getD 2 0) (b.getD 3 0) : Int),
               planes := leU16 (b.getD 4 0) (b.getD 5 0),
               bitCount := leU16 (b.getD 6 0) (b.getD 7 0),
               compression := 0 }, s2)
    else if headerSize = 40 then
      -- BITMAPINFOHEADER: 36 remaining bytes; only the first 16 are decoded.
      match s1.readN 36 with
      | none => .error .ioError
      | some (b, s2) =>
        .ok ({ size := 40,
               width := toInt32 (leU32 (b.getD 0 0) (b.getD 1 0) (b.getD 2 0) (b.getD 3 0)),
               height := toInt32 (leU32 (b.getD 4 0) (b.getD 5 0) (b.getD 6 0) (b.getD 7 0)),
               planes := leU16 (b.getD 8 0) (b.getD 9 0),
               bitCount := leU16 (b.getD 10 0) (b.getD 11 0),
               compression := leU32 (b.getD 12 0) (b.getD 13 0) (b.getD 14 0) (b.getD 15 0) },
             s2)
    else .error .badHeader

/-- The bit-fields branch of `Decode` (reader.go 98-105): when compression is
`biBitFields` (3), read four little-endian `uint32` masks. -/
def readMasks (s : ByteStream) (info : InfoHeader) :
    Except BmpError (InfoHeader × ByteStream) :=
  if info.compression = 3 then
    match s.readN 16 with
    | none => .error .ioError
    | some (b, s1) =>
      .ok ({ info with
             redMask := leU32 (b.getD 0 0) (b.getD 1 0) (b.getD 2 0) (b.getD 3 0),
             greenMask := leU32 (b.getD 4 0) (b.getD 5 0) (b.getD 6 0) (b.getD 7 0),
             blueMask := leU32 (b.getD 8 0) (b.getD 9 0) (b.getD 10 0) (b.getD 11 0),
             alphaMask := leU32 (b.getD 12 0) (b.getD 13 0) (b.getD 14 0) (b.getD 15 0) }, s1)
  else .ok (info, s)

/- ------------------------------------------------------------------
Indexed pixel decoding (reader.go 167-208).

Go's `int` arithmetic on `width`/`height` is modelled on `Nat` after the
conversions the code performs (`Int.natAbs` for the `if height < 0` negation,
`Int.toNat` where a possibly-negative loop bound is used directly); negative
widths would make Go's `make([]byte, ...)` panic and are outside the model.
------------------------------------------------------------------ -/

/-- Row byte width of the indexed decoder (reader.go 179):
`(width*bitsPerPixel + 31) / 32 * 4`. -/
def bytesPerRowIndexed (width bitCount : Nat) : Nat :=
  (width * bitCount + 31) / 32 * 4

/-- Index extraction for one pixel (reader.go 193-203): byte position, in-byte
bit offset (flipped to MSB-first only for 1-bit depth), shift and mask. -/
def extractIndex (bitCount : Nat) (row : List Nat) (x : Nat) : Nat :=
  let pixelsPerByte := 8 / bitCount
  let bitMask := (1 <<< bitCount - 1) % 256
  let bytePos := x / pixelsPerByte
  let bitOffset0 := (x % pixelsPerByte) * bitCount
  let bitOffset := if bitCount = 1 then 7 - bitOffset0 else bitOffset0
  (row.getD bytePos 0 >>> bitOffset) &&& bitMask

/-- The inner `for x` loop of `readIndexedData` (reader.go 193-205). -/
def writeIndexedRow (bitCount : Nat) (row : List Nat) (width targetY : Nat)
    (img : PalettedImg) : PalettedImg :=
  (List.range width).foldl
    (fun im x => im.setIndex x targetY (extractIndex bitCount row x)) img

/-- The `for y` loop of `readIndexedData` (reader.go 182-206): read one padded
row, compute the orientation-mapped target row, write its pixels.  On a short
read the error is returned with the image as written so far (the Go function
mutates `img` through a pointer and returns only the error). -/
def readIndexedRows (declHeight : Int) (bitCount width height bytesPerRow : Nat) :
    List Nat → ByteStream → PalettedImg → PalettedImg × ByteStream × Option BmpError
  | [], s, img => (img, s, none)
  | y :: ys, s, img =>
    match s.readN bytesPerRow with
    | none => (img, s, some .ioError)
    | some (row, s1) =>
      let targetY := if 0 < declHeight then height - 1 - y else y
      readIndexedRows declHeight bitCount width height bytesPerRow ys s1
        (writeIndexedRow bitCount row width targetY img)

/-- `readIndexedData` (reader.go 167-208). -/
def readIndexedData (s : ByteStream) (img : PalettedImg) (info : InfoHeader) :
    PalettedImg × ByteStream × Option BmpError :=
  let width := info.width.toNat
  let height := info.height.natAbs
  let bytesPerRow := bytesPerRowIndexed width info.bitCount
  readIndexedRows info.height info.bitCount width height bytesPerRow
    (List.range height) s img

/- ------------------------------------------------------------------
Direct-color decoding (reader.go 210-330, 350-376).
------------------------------------------------------------------ -/

/-- Shared shape of the three direct-color `for y` loops: read one padded row,
orientation-map it, write it with the per-depth row writer. -/
def readPixRows (declHeight : Int) (height bytesPerRow : Nat)
    (writeRow : List Nat → Nat → PixBuf → PixBuf) :
    List Nat → ByteStream → PixBuf → PixBuf × ByteStream × Option BmpError
  | [], s, img => (img, s, none)
  | y :: ys, s, img =>
    match s.readN bytesPerRow with
    | none => (img, s, some .ioError)
    | some (row, s1) =>
      let targetY := if 0 < declHeight then height - 1 - y else y
      readPixRows declHeight height bytesPerRow writeRow ys s1 (writeRow row targetY img)

/-- Row byte width of the 16-bit decoder (reader.go 233):
`(width*2 + 3) &^ 3`, i.e. the low two bits cleared. -/
def bytesPerRow16 (width : Nat) : Nat :=
  (width * 2 + 3) / 4 * 4

/-- One channel of the 16-bit expansion (reader.go 251-261): mask, shift down,
shift into the high bits, OR in one copy of the top bits, truncate to
`uint16`.  The intermediate `% 2^32` is Go's `uint32` wrap-around; `16 - bits`
is truncated subtraction exactly where Go would otherwise panic on a negative
shift. -/
def expand16 (pixel mask shift bits : Nat) : Nat :=
  let c := pixel &&& mask
  let c := ((c >>> shift) <<< (16 - bits)) % 4294967296
  (c ||| (c >>> bits)) % 65536

/-- The per-pixel body of `read16BitData` (reader.go 246-268): the three
channels expanded through their `maskShift` parameters, alpha `0xFFFF`. -/
def decode16Pixel (redMask greenMask blueMask pixel : Nat) : Rgba :=
  let rp := maskShift redMask
  let gp := maskShift greenMask
  let bp := maskShift blueMask
  ⟨expand16 pixel redMask rp.1 rp.2,
   expand16 pixel greenMask gp.1 gp.2,
   expand16 pixel blueMask bp.1 bp.2,
   65535⟩

/-- The inner `for x` loop of `read16BitData` (reader.go 246-269): little-endian
16-bit word per pixel. -/
def write16Row (redMask greenMask blueMask : Nat) (width : Nat)
    (row : List Nat) (targetY : Nat) (img : PixBuf) : PixBuf :=
  (List.range width).foldl
    (fun im x =>
      im.setPx x targetY
        (decode16Pixel redMask greenMask blueMask
          (leU16 (row.getD (x * 2) 0) (row.getD (x * 2 + 1) 0)))) img

/-- `read16BitData` (reader.go 211-272): RGB565 default masks unless
bit-fields compression is active; returns `(nil, err)` on a short read. -/
def read16BitData (s : ByteStream) (img : PixBuf) (info : InfoHeader) :
    Option Img × Option BmpError :=
  let width := info.width.toNat
  let height := info.height.natAbs
  let redMask := if info.compression = 3 then info.redMask else 0xF800
  let greenMask := if info.compression = 3 then info.greenMask else 0x07E0
  let blueMask := if info.compression = 3 then info.blueMask else 0x001F
  let bytesPerRow := bytesPerRow16 width
  match readPixRows info.height height bytesPerRow
      (write16Row redMask greenMask blueMask width) (List.range height) s img with
  | (img1, _, none) => (some (.rgba64 img1), none)
  | (_, _, some e) => (none, some e)

/-- Row byte width of the 24-bit decoder (reader.go 352):
`(int(info.Width)*3 + 3) &^ 3`. -/
def bytesPerRow24 (width : Nat) : Nat :=
  (width * 3 + 3) / 4 * 4

/-- The inner `for x` loop of `read24BitData` (reader.go 365-373): three bytes
blue, green, red; alpha 255. -/
def write24Row (width : Nat) (row : List Nat) (targetY : Nat) (img : PixBuf) : PixBuf :=
  (List.range width).foldl
    (fun im x =>
      let offset := x * 3
      im.setPx x targetY
        ⟨row.getD (offset + 2) 0, row.getD (offset + 1) 0, row.getD offset 0, 255⟩) img

/-- `read24BitData` (reader.go 351-376).  Unlike the other three decoders it
never negates the height: the row loop runs `for y := 0; y < int(info.Height)`,
which is zero iterations when the declared height is negative — hence the
`Int.toNat` loop bound. -/
def read24BitData (s : ByteStream) (img : PixBuf) (info : InfoHeader) :
    Option Img × Option BmpError :=
  let width := info.width.toNat
  let bytesPerRow := bytesPerRow24 width
  match readPixRows info.height info.height.toNat bytesPerRow
      (write24Row width) (List.range info.height.toNat) s img with
  | (img1, _, none) => (some (.rgba img1), none)
  | (_, _, some e) => (none, some e)

/-- Row byte width of the 32-bit decoder (reader.go 300): `width * 4`. -/
def bytesPerRow32 (width : Nat) : Nat :=
  width * 4

/-- The inner `for x` loop of `read32BitData` (reader.go 313-327): mask, shift,
truncate each channel to a byte; a zero alpha mask forces alpha 255. -/
def write32Row (redMask greenMask blueMask alphaMask : Nat) (width : Nat)
    (row : List Nat) (targetY : Nat) (img : PixBuf) : PixBuf :=
  (List.range width).foldl
    (fun im x =>
      let pixel := leU32 (row.getD (x * 4) 0) (row.getD (x * 4 + 1) 0)
        (row.getD (x * 4 + 2) 0) (row.getD (x * 4 + 3) 0)
      let r := ((pixel &&& redMask) >>> (maskShift redMask).1) % 256
      let g := ((pixel &&& greenMask) >>> (maskShift greenMask).1) % 256
      let b := ((pixel &&& blueMask) >>> (maskShift blueMask).1) % 256
      let a0 := ((pixel &&& alphaMask) >>> (maskShift alphaMask).1) % 256
      let a := if alphaMask = 0 then 255 else a0
      im.setPx x targetY ⟨r, g, b, a⟩) img

/-- `read32BitData` (reader.go 275-330): standard `0xAARRGGBB` default masks
unless bit-fields compression is active. -/
def read32BitData (s : ByteStream) (img : PixBuf) (info : InfoHeader) :
    Option Img × Option BmpError :=
  let width := info.width.toNat
  let height := info.height.natAbs
  let redMask := if info.compression = 3 then info.redMask else 0x00FF0000
  let greenMask := if info.compression = 3 then info.greenMask else 0x0000FF00
  let blueMask := if info.compression = 3 then info.blueMask else 0x000000FF
  let alphaMask := if info.compression = 3 then info.alphaMask else 0xFF000000
  let bytesPerRow := bytesPerRow32 width
  match readPixRows info.height height bytesPerRow
      (write32Row redMask greenMask blueMask alphaMask width) (List.range height) s img with
  | (img1, _, none) => (some (.rgba img1), none)
  | (_, _, some e) => (none, some e)

/-- `decodePixelData` (reader.go 137-164).  Note the indexed branch returns the
allocated image together with whatever error `readIndexedData` produced, while
the direct-color branches forward `(nil, err)`. -/
def decodePixelData (s : ByteStream) (info : InfoHeader) (palette : List Rgba) :
    Option Img × Option BmpError :=
  let width := info.width.toNat
  let height := info.height.natAbs
  if info.bitCount = 1 ∨ info.bitCount = 4 ∨ info.bitCount = 8 then
    let res := readIndexedData s (newPaletted width height palette) info
    (some (.paletted res.1), res.2.2)
  else if info.bitCount = 16 then
    read16BitData s (newPixBuf width height) info
  else if info.bitCount = 24 then
    read24BitData s (newPixBuf width height) info
  else if info.bitCount = 32 then
    read32BitData s (newPixBuf width height) info
  else (none, some .badBitDepth)

/-- `Decode` (reader.go 44-114).  The seek to `fileHeader.DataOffset` is an
absolute seek to a non-negative offset (`Seek(offset, io.SeekStart)`), which
cannot fail, so it is modelled as setting the stream position. -/
def Decode (data : List Nat) : Option Img × Option BmpError :=
  match readFileHeader ⟨data, 0⟩ with
  | .error e => (none, some e)
  | .ok (fh, s1) =>
    if fh.sig0 = 66 ∧ fh.sig1 = 77 then
      match readInfoHeader s1 with
      | .error e => (none, some e)
      | .ok (info, s2) =>
        match parsePalette s2 info with
        | .error e => (none, some e)
        | .ok (palette, s3) =>
          match readMasks s3 info with
          | .error e => (none, some e)
          | .ok (info2, s4) =>
            decodePixelData ⟨s4.data, fh.dataOffset⟩ info2 palette
    else (none, some .badSignature)

lemma shiftLoop_pow (w : Nat) (hw : 1 ≤ w) :
    ∀ (s fuel k : Nat), s ≤ fuel →
      shiftLoop fuel ((2 ^ w - 1) * 2 ^ s) k = (2 ^ w - 1, k + s) := by
  intro s
  induction s with
  | zero =>
    intro fuel k _
    have hodd : (2 ^ w - 1) &&& 1 = 1 := by
      have h2 : 2 ^ w = 2 * 2 ^ (w - 1) := by
        rw [← pow_succ']
        congr 1
        omega
      rw [Nat.and_one_is_mod, h2]
      have hp : 1 ≤ 2 ^ (w - 1) := Nat.one_le_two_pow
      omega
    cases fuel with
    | zero => simp [shiftLoop]
    | succ f =>
      simp only [shiftLoop, pow_zero, mul_one, hodd]
      simp
  | succ n ih =>
    intro fuel k hle
    cases fuel with
    | zero => omega
    | succ f =>
      have hne : (2 ^ w - 1) * 2 ^ (n + 1) ≠ 0 := by
        have h2 : 1 ≤ 2 ^ (n + 1) := Nat.one_le_two_pow
        have hww : 2 ≤ 2 ^ w := by
          calc 2 = 2 ^ 1 := rfl
          _ ≤ 2 ^ w := Nat.pow_le_pow_right (by omega) hw
        exact Nat.mul_ne_zero (by omega) (by omega)
      have heven : ((2 ^ w - 1) * 2 ^ (n + 1)) &&& 1 = 0 := by
        rw [Nat.and_one_is_mod, pow_succ, ← mul_assoc]
        omega
      have hhalf : ((2 ^ w - 1) * 2 ^ (n + 1)) >>> 1 = (2 ^ w - 1) * 2 ^ n := by
        rw [Nat.shiftRight_succ, Nat.shiftRight_zero, pow_succ, ← mul_assoc]
        omega
      simp only [shiftLoop, heven, hne, ne_eq, not_false_eq_true, and_true, if_true, hhalf]
      rw [ih f (k + 1) (by omega)]
      congr 1
      omega

lemma bitsLoop_pow : ∀ (w fuel k : Nat), w ≤ fuel →
    bitsLoop fuel (2 ^ w - 1) k = (0, k + w) := by
  intro w
  induction w with
  | zero =>
    intro fuel k _
    cases fuel with
    | zero => simp [bitsLoop]
    | succ f => simp [bitsLoop]
  | succ n ih =>
    intro fuel k hle
    cases fuel with
    | zero => omega
    | succ f =>
      have hodd : (2 ^ (n + 1) - 1) &&& 1 = 1 := by
        rw [Nat.and_one_is_mod, pow_succ]
        have hp : 1 ≤ 2 ^ n := Nat.one_le_two_pow
        omega
      have hhalf : (2 ^ (n + 1) - 1) >>> 1 = 2 ^ n - 1 := by
        rw [Nat.shiftRight_succ, Nat.shiftRight_zero, pow_succ]
        have hp : 1 ≤ 2 ^ n := Nat.one_le_two_pow
        omega
      simp only [bitsLoop, hodd, if_true, hhalf]
      rw [ih f (k + 1) (by omega)]
      congr 1
      omega

lemma getD_take (l : List Nat) (n i : Nat) (h : i < n) :
    (l.take n).getD i 0 = l.getD i 0 := by
  simp [List.getD_eq_getElem?_getD, List.getElem?_take_of_lt h]

lemma getD_take_drop (l : List Nat) (p n i : Nat) (h : i < n) :
    ((l.drop p).take n).getD i 0 = l.getD (p + i) 0 := by
  simp [List.getD_eq_getElem?_getD, List.getElem?_take_of_lt h, List.getElem?_drop]

lemma readN_ok (s : ByteStream) (n : Nat) (h : s.pos + n ≤ s.data.length) :
    s.readN n = some ((s.data.drop s.pos).take n, ⟨s.data, s.pos + n⟩) := by
  simp [ByteStream.readN, h]

lemma readN_short (s : ByteStream) (n : Nat) (h : s.data.length < s.pos + n) :
    s.readN n = none := by
  simp only [ByteStream.readN, ite_eq_right_iff]
  omega

lemma maskShift_contiguous (s w : Nat) (hw : 1 ≤ w) (hsw : s + w ≤ 32) :
    maskShift ((2 ^ w - 1) * 2 ^ s) = (s, w) := by
  have hmask : (2 ^ w - 1) * 2 ^ s ≠ 0 := by
    have hww : 2 ≤ 2 ^ w := by
      calc 2 = 2 ^ 1 := rfl
      _ ≤ 2 ^ w := Nat.pow_le_pow_right (by omega) hw
    have h2 : 1 ≤ 2 ^ s := Nat.one_le_two_pow
    exact Nat.mul_ne_zero (by omega) (by omega)
  have h1 := shiftLoop_pow w hw s 32 0 (by omega)
  have h2 := bitsLoop_pow w 32 0 (by omega)
  simp only [maskShift, if_neg hmask, h1, h2, Nat.zero_add]


lemma readPaletteEntries_ok : ∀ (n : Nat) (s : ByteStream),
    s.pos + 4 * n ≤ s.data.length →
    readPaletteEntries n s =
      .ok ((List.range n).map (fun i =>
             (⟨s.data.getD (s.pos + 4 * i + 2) 0, s.data.getD (s.pos + 4 * i + 1) 0,
               s.data.getD (s.pos + 4 * i) 0, 255⟩ : Rgba)),
           ⟨s.data, s.pos + 4 * n⟩) := by
  intro n
  induction n with
  | zero => intro s h; simp [readPaletteEntries]
  | succ n ih =>
    intro s h
    have h4 : s.pos + 4 ≤ s.data.length := by omega
    have g0 := getD_take_drop s.data s.pos 4 0 (by omega)
    have g1 := getD_take_drop s.data s.pos 4 1 (by omega)
    have g2 := getD_take_drop s.data s.pos 4 2 (by omega)
    have hrec := ih ⟨s.data, s.pos + 4⟩ (by simp only []; omega)
    simp only [readPaletteEntries, readN_ok s 4 h4, g0, g1, g2, hrec,
      List.range_succ_eq_map, List.map_cons, List.map_map, Function.comp,
      Except.ok.injEq, Prod.mk.injEq, List.cons.injEq, ByteStream.mk.injEq, Rgba.mk.injEq]
    refine ⟨⟨trivial, List.map_congr_left (fun i _ => ?_)⟩, trivial, by omega⟩
    simp only [Function.comp_apply, Nat.succ_eq_add_one]
    rw [show s.pos + 4 + 4 * i + 2 = s.pos + 4 * (i + 1) + 2 from by omega,
        show s.pos + 4 + 4 * i + 1 = s.pos + 4 * (i + 1) + 1 from by omega,
        show s.pos + 4 + 4 * i = s.pos + 4 * (i + 1) from by omega]

lemma readPaletteEntries_short : ∀ (n : Nat) (s : ByteStream),
    s.data.length < s.pos + 4 * (n + 1) →
    readPaletteEntries (n + 1) s = .error .ioError := by
  intro n
  induction n with
  | zero =>
    intro s h
    simp [readPaletteEntries, readN_short s 4 (by omega)]
  | succ n ih =>
    intro s h
    by_cases h4 : s.pos + 4 ≤ s.data.length
    · have hrec := ih ⟨s.data, s.pos + 4⟩ (by simp only []; omega)
      simp only [readPaletteEntries, readN_ok s 4 h4] at hrec ⊢
      rw [hrec]
    · simp [readPaletteEntries, readN_short s 4 (by omega)]

lemma setIndex_geom (img : PalettedImg) (x y i : Nat) :
    (img.setIndex x y i).width = img.width ∧
    (img.setIndex x y i).height = img.height ∧
    (img.setIndex x y i).palette = img.palette ∧
    (img.setIndex x y i).pix.length = img.pix.length := by
  unfold PalettedImg.setIndex
  split <;> simp

lemma getIndex_setIndex_self (img : PalettedImg) (x y i : Nat)
    (hx : x < img.width) (hy : y < img.height)
    (hlen : img.pix.length = img.width * img.height) :
    (img.setIndex x y i).getIndex x y = i := by
  have hpos : y * img.width + x < img.pix.length := by
    have h1 : y * img.width + x < (y + 1) * img.width := by
      rw [Nat.succ_mul]
      omega
    have h2 : (y + 1) * img.width ≤ img.height * img.width :=
      Nat.mul_le_mul_right _ hy
    rw [hlen, Nat.mul_comm img.width img.height]
    omega
  unfold PalettedImg.setIndex PalettedImg.getIndex
  rw [if_pos ⟨hx, hy⟩]
  simp [List.getD_eq_getElem?_getD, List.getElem?_set_self hpos]

lemma getIndex_setIndex_ne (img : PalettedImg) (x y xo yo i : Nat)
    (hne : yo * img.width + xo ≠ y * img.width + x) :
    (img.setIndex xo yo i).getIndex x y = img.getIndex x y := by
  unfold PalettedImg.setIndex PalettedImg.getIndex
  split
  · simp [List.getD_eq_getElem?_getD, List.getElem?_set_ne hne]
  · rfl

lemma foldl_setIndex_geom (bc : Nat) (row : List Nat) (ty : Nat) :
    ∀ (l : List Nat) (img : PalettedImg),
      ((l.foldl (fun im x => im.setIndex x ty (extractIndex bc row x)) img).width
          = img.width) ∧
      ((l.foldl (fun im x => im.setIndex x ty (extractIndex bc row x)) img).height
          = img.height) ∧
      ((l.foldl (fun im x => im.setIndex x ty (extractIndex bc row x)) img).palette
          = img.palette) ∧
      ((l.foldl (fun im x => im.setIndex x ty (extractIndex bc row x)) img).pix.length
          = img.pix.length) := by
  intro l
  induction l with
  | nil => intro img; exact ⟨rfl, rfl, rfl, rfl⟩
  | cons a l ih =>
    intro img
    have hs := setIndex_geom img a ty (extractIndex bc row a)
    have ht := ih (img.setIndex a ty (extractIndex bc row a))
    simp only [List.foldl_cons]
    exact ⟨ht.1.trans hs.1, ht.2.1.trans hs.2.1, ht.2.2.1.trans hs.2.2.1,
      ht.2.2.2.trans hs.2.2.2⟩

lemma writeIndexedRow_getIndex (bc : Nat) (row : List Nat) (ty : Nat) :
    ∀ (width : Nat) (img : PalettedImg) (x : Nat), x < width →
      x < img.width → ty < img.height → img.pix.length = img.width * img.height →
      (writeIndexedRow bc row width ty img).getIndex x ty = extractIndex bc row x := by
  intro width
  induction width with
  | zero => intro img x hx _ _ _; omega
  | succ w ih =>
    intro img x hx hxw hty hlen
    have hgeom := foldl_setIndex_geom bc row ty (List.range w) img
    unfold writeIndexedRow at hgeom ⊢
    rw [List.range_succ, List.foldl_append, List.foldl_cons, List.foldl_nil]
    by_cases hxeq : x = w
    · subst hxeq
      exact getIndex_setIndex_self _ x ty _ (hgeom.1.symm ▸ hxw) (hgeom.2.1.symm ▸ hty)
        (by rw [hgeom.2.2.2, hgeom.1, hgeom.2.1, hlen])
    · rw [getIndex_setIndex_ne _ x ty w ty _ (by rw [hgeom.1]; omega)]
      exact ih img x (by omega) hxw hty hlen

lemma readIndexedRows_err_none (dh : Int) (bc w h bpr : Nat) :
    ∀ (ys : List Nat) (s : ByteStream) (img : PalettedImg),
      s.pos + ys.length * bpr ≤ s.data.length →
      (readIndexedRows dh bc w h bpr ys s img).2.2 = none := by
  intro ys
  induction ys with
  | nil => intro s img h; rfl
  | cons y ys ih =>
    intro s img h
    rw [List.length_cons, Nat.succ_mul] at h
    have h1 : s.pos + bpr ≤ s.data.length := by omega
    unfold readIndexedRows
    rw [readN_ok s bpr h1]
    exact ih ⟨s.data, s.pos + bpr⟩ _ (by simp only []; omega)

lemma readIndexedRows_palette (dh : Int) (bc w h bpr : Nat) :
    ∀ (ys : List Nat) (s : ByteStream) (img : PalettedImg),
      (readIndexedRows dh bc w h bpr ys s img).1.palette = img.palette := by
  intro ys
  induction ys with
  | nil => intro s img; rfl
  | cons y ys ih =>
    intro s img
    unfold readIndexedRows
    cases hN : s.readN bpr with
    | none => rfl
    | some v =>
      rw [ih]
      exact (foldl_setIndex_geom bc _ _ (List.range w) img).2.2.1

end Xbmp

/-- Claim C5: `maskShift` is a pure function on 32-bit masks: a mask of zero
returns `(0, 0)`; for every nonzero mask whose set bits form one contiguous
run (i.e. the mask is `(2^w - 1) * 2^s` with `w ≥ 1` and `s + w ≤ 32`), it
returns shift `s`, the index of the lowest set bit, and width `w`, the number
of contiguous set bits starting at that index. -/
theorem c5_maskShift_spec :
    Xbmp.maskShift 0 = (0, 0) ∧
    ∀ s w : Nat, 1 ≤ w → s + w ≤ 32 →
      Xbmp.maskShift ((2 ^ w - 1) * 2 ^ s) = (s, w) := by
  constructor
  · rfl
  · intro s w hw hsw
    exact Xbmp.maskShift_contiguous s w hw hsw

/-- Witness for C5 at the concrete 16-bit red mask `0xF800 = (2^5 - 1) * 2^11`:
the hypotheses hold and `maskShift` returns shift 11, width 5. -/
theorem c5_maskShift_spec_witness :
    1 ≤ 5 ∧ 11 + 5 ≤ 32 ∧ Xbmp.maskShift ((2 ^ 5 - 1) * 2 ^ 11) = (11, 5) :=
  ⟨by decide, by decide, c5_maskShift_spec.2 11 5 (by decide) (by decide)⟩

/-- Counterexample to claim C1: with red mask `0xF800`, green `0x07E0`, blue
`0x001F`, the source pixel word `0xFFFF` does **not** decode to
R = G = B = `0xFFFF`: the red channel comes out as `0xFFC0`, because the
expansion ORs in only one copy of the top bits (`r |= r >> rBits`), which for
a 5-bit channel fills just the top 10 of the 16 bits. -/
theorem c1_white_counterexample :
    (Xbmp.decode16Pixel 0xF800 0x07E0 0x001F 0xFFFF).r ≠ 0xFFFF := by decide

/-- Claim C1 (amended): for a 16-bit bit-fields image with red mask `0xF800`,
green `0x07E0`, blue `0x001F`, a source pixel word `0xFFFF` decodes to
R = `0xFFC0`, G = `0xFFF0`, B = `0xFFC0`, A = `0xFFFF`: each channel is
expanded by one round of bit replication (`(v << (16-N)) | (v << (16-N)) >> N`),
which fills only the top `2N` bits rather than producing full-intensity
`0xFFFF`.  Stated both for the per-pixel expansion and end-to-end for a
complete 1×1 bit-fields file. -/
theorem c1_white_amended :
    Xbmp.decode16Pixel 0xF800 0x07E0 0x001F 0xFFFF = ⟨0xFFC0, 0xFFF0, 0xFFC0, 0xFFFF⟩ ∧
    Xbmp.Decode Xbmp.c1bytes =
      (some (.rgba64 ⟨1, 1, [⟨0xFFC0, 0xFFF0, 0xFFC0, 0xFFFF⟩]⟩), none) := by
  constructor
  · decide
  · decide

/-- Claim C2 fails on the code (code bug): on an indexed image whose pixel
data is truncated mid-image, `Decode` returns the partially-filled
`image.Paletted` **together with** the I/O error (the indexed branch of
`decodePixelData` is `return img, err`), not a nil image.  Here the single
available on-disk row was already written to output row 1 before the error. -/
theorem c2_partial_image_on_error :
    Xbmp.Decode Xbmp.c2bytes =
      (some (.paletted ⟨1, 2, [⟨0, 0, 0, 255⟩, ⟨255, 255, 255, 255⟩], [0, 1]⟩),
       some .ioError) := by
  decide

/-- Claim C3 fails on the code (code bug): `read24BitData` never negates a
negative declared height — its row loop runs `for y := 0; y < int(info.Height)`
— so a top-down 24-bit image decodes **zero** rows.  Decoding this 1×1
top-down 24-bit file succeeds but returns the zero-initialised pixel
`(0,0,0,0)` instead of the stored row `B=3, G=2, R=1` at output row 0, and the
pixel row is never read. -/
theorem c3_topdown_24bit_reads_no_rows :
    Xbmp.Decode Xbmp.c3bytes = (some (.rgba ⟨1, 1, [⟨0, 0, 0, 0⟩]⟩), none) := by
  decide

/-- Claim C4 fails on the code for 4-bit depth (code bug): the MSB-first flip
`bitOffset = 7 - bitOffset` is applied only when `info.BitCount == 1`, so for
4-bit data the **first** pixel of each byte (even x) is extracted from the
**low** nibble and the second from the high nibble.  For the row byte `0xAB`
the code yields index `0xB` at x = 0 and `0xA` at x = 1 — the opposite of the
MSB-first grouping the claim (and the BMP format) requires — while the 1-bit
offset `7 - (x mod 8)` part of the claim does hold. -/
theorem c4_nibble_order_lsb_first :
    Xbmp.extractIndex 4 [0xAB] 0 = 0xB ∧ Xbmp.extractIndex 4 [0xAB] 1 = 0xA ∧
    Xbmp.extractIndex 1 [0x80] 0 = 1 ∧ Xbmp.extractIndex 1 [0x01] 7 = 1 := by
  decide

/-- Counterexample to claim C6: on a 2-byte stream whose bytes are not "BM"
the 14-byte file-header read itself fails, so `Decode` fails with the I/O
error, not a format error — the claim's "every input stream" is too strong. -/
theorem c6_short_stream_counterexample :
    Xbmp.Decode [88, 88] = (none, some .ioError) := by decide

/-- Claim C6 (amended): for every input stream of at least 14 bytes whose
first two bytes are not the ASCII literal "BM" (`0x42 0x4D`), `Decode` fails
with the invalid-signature format error and returns no image; the palette,
mask, and pixel stages are never reached. -/
theorem c6_bad_signature (data : List Nat) (hlen : 14 ≤ data.length)
    (hsig : ¬(data.getD 0 0 = 66 ∧ data.getD 1 0 = 77)) :
    Xbmp.Decode data = (none, some .badSignature) := by
  have hr : (⟨data, 0⟩ : Xbmp.ByteStream).readN 14 =
      some ((data.drop 0).take 14, ⟨data, 0 + 14⟩) :=
    Xbmp.readN_ok _ 14 (by simpa using hlen)
  unfold Xbmp.Decode Xbmp.readFileHeader
  simp only [hr, List.drop_zero,
    Xbmp.getD_take data 14 0 (by omega), Xbmp.getD_take data 14 1 (by omega)]
  rw [if_neg hsig]

/-- Witness for C6 (amended) at a concrete 14-byte all-zero stream. -/
theorem c6_bad_signature_witness :
    14 ≤ (List.replicate 14 0).length ∧
    ¬((List.replicate 14 0).getD 0 0 = 66 ∧ (List.replicate 14 0).getD 1 0 = 77) ∧
    Xbmp.Decode (List.replicate 14 0) = (none, some .badSignature) :=
  ⟨by decide, by decide, c6_bad_signature _ (by decide) (by decide)⟩

/-- Claim C7: the header parser branches on the 4-byte header-size tag.  For
size 12 it reads 16-bit width, height, planes, and bit count and forces
compression to none (0); for size 40 it reads the signed 32-bit width/height,
planes, bit count, and compression fields; for every other tag it fails with
the unsupported-header format error. -/
theorem c7_header_branches :
    (∀ s : Xbmp.ByteStream, s.pos + 4 ≤ s.data.length →
      Xbmp.leU32 (s.byteAt 0) (s.byteAt 1) (s.byteAt 2) (s.byteAt 3) ≠ 12 →
      Xbmp.leU32 (s.byteAt 0) (s.byteAt 1) (s.byteAt 2) (s.byteAt 3) ≠ 40 →
      Xbmp.readInfoHeader s = .error .badHeader) ∧
    (∀ s : Xbmp.ByteStream, s.pos + 12 ≤ s.data.length →
      Xbmp.leU32 (s.byteAt 0) (s.byteAt 1) (s.byteAt 2) (s.byteAt 3) = 12 →
      Xbmp.readInfoHeader s =
        .ok ({ size := 12,
               width := (Xbmp.leU16 (s.byteAt 4) (s.byteAt 5) : Int),
               height := (Xbmp.leU16 (s.byteAt 6) (s.byteAt 7) : Int),
               planes := Xbmp.leU16 (s.byteAt 8) (s.byteAt 9),
               bitCount := Xbmp.leU16 (s.byteAt 10) (s.byteAt 11),
               compression := 0 }, ⟨s.data, s.pos + 12⟩)) ∧
    (∀ s : Xbmp.ByteStream, s.pos + 40 ≤ s.data.length →
      Xbmp.leU32 (s.byteAt 0) (s.byteAt 1) (s.byteAt 2) (s.byteAt 3) = 40 →
      Xbmp.readInfoHeader s =
        .ok ({ size := 40,
               width := Xbmp.toInt32
                 (Xbmp.leU32 (s.byteAt 4) (s.byteAt 5) (s.byteAt 6) (s.byteAt 7)),
               height := Xbmp.toInt32
                 (Xbmp.leU32 (s.byteAt 8) (s.byteAt 9) (s.byteAt 10) (s.byteAt 11)),
               planes := Xbmp.leU16 (s.byteAt 12) (s.byteAt 13),
               bitCount := Xbmp.leU16 (s.byteAt 14) (s.byteAt 15),
               compression := Xbmp.leU32 (s.byteAt 16) (s.byteAt 17) (s.byteAt 18)
                 (s.byteAt 19) },
             ⟨s.data, s.pos + 40⟩)) := by
  refine ⟨?_, ?_, ?_⟩
  · intro s h4 h12 h40
    have e0 := Xbmp.getD_take_drop s.data s.pos 4 0 (by omega)
    have e1 := Xbmp.getD_take_drop s.data s.pos 4 1 (by omega)
    have e2 := Xbmp.getD_take_drop s.data s.pos 4 2 (by omega)
    have e3 := Xbmp.getD_take_drop s.data s.pos 4 3 (by omega)
    simp only [Xbmp.ByteStream.byteAt] at h12 h40
    simp only [Xbmp.readInfoHeader, Xbmp.readN_ok s 4 h4, e0, e1, e2, e3]
    rw [if_neg h12, if_neg h40]
  · intro s hlen htag
    have h4 : s.pos + 4 ≤ s.data.length := by omega
    have h8 : (s.pos + 4) + 8 ≤ s.data.length := by omega
    have e0 := Xbmp.getD_take_drop s.data s.pos 4 0 (by omega)
    have e1 := Xbmp.getD_take_drop s.data s.pos 4 1 (by omega)
    have e2 := Xbmp.getD_take_drop s.data s.pos 4 2 (by omega)
    have e3 := Xbmp.getD_take_drop s.data s.pos 4 3 (by omega)
    simp only [Xbmp.ByteStream.byteAt] at htag
    simp only [Xbmp.readInfoHeader, Xbmp.readN_ok s 4 h4, e0, e1, e2, e3]
    rw [if_pos htag]
    have hr2 := Xbmp.readN_ok ⟨s.data, s.pos + 4⟩ 8 h8
    simp only [hr2]
    have f0 := Xbmp.getD_take_drop s.data (s.pos + 4) 8 0 (by omega)
    have f1 := Xbmp.getD_take_drop s.data (s.pos + 4) 8 1 (by omega)
    have f2 := Xbmp.getD_take_drop s.data (s.pos + 4) 8 2 (by omega)
    have f3 := Xbmp.getD_take_drop s.data (s.pos + 4) 8 3 (by omega)
    have f4 := Xbmp.getD_take_drop s.data (s.pos + 4) 8 4 (by omega)
    have f5 := Xbmp.getD_take_drop s.data (s.pos + 4) 8 5 (by omega)
    have f6 := Xbmp.getD_take_drop s.data (s.pos + 4) 8 6 (by omega)
    have f7 := Xbmp.getD_take_drop s.data (s.pos + 4) 8 7 (by omega)
    simp only [f0, f1, f2, f3, f4, f5, f6, f7]
    simp [Xbmp.ByteStream.byteAt, Nat.add_assoc]
  · intro s hlen htag
    have h4 : s.pos + 4 ≤ s.data.length := by omega
    have h36 : (s.pos + 4) + 36 ≤ s.data.length := by omega
    have e0 := Xbmp.getD_take_drop s.data s.pos 4 0 (by omega)
    have e1 := Xbmp.getD_take_drop s.data s.pos 4 1 (by omega)
    have e2 := Xbmp.getD_take_drop s.data s.pos 4 2 (by omega)
    have e3 := Xbmp.getD_take_drop s.data s.pos 4 3 (by omega)
    simp only [Xbmp.ByteStream.byteAt] at htag
    have h12 : Xbmp.leU32 (s.data.getD (s.pos + 0) 0) (s.data.getD (s.pos + 1) 0)
        (s.data.getD (s.pos + 2) 0) (s.data.getD (s.pos + 3) 0) ≠ 12 := by
      rw [htag]; decide
    simp only [Xbmp.readInfoHeader, Xbmp.readN_ok s 4 h4, e0, e1, e2, e3]
    rw [if_neg h12, if_pos htag]
    have hr2 := Xbmp.readN_ok ⟨s.data, s.pos + 4⟩ 36 h36
    simp only [hr2]
    have f0 := Xbmp.getD_take_drop s.data (s.pos + 4) 36 0 (by omega)
    have f1 := Xbmp.getD_take_drop s.data (s.pos + 4) 36 1 (by omega)
    have f2 := Xbmp.getD_take_drop s.data (s.pos + 4) 36 2 (by omega)
    have f3 := Xbmp.getD_take_drop s.data (s.pos + 4) 36 3 (by omega)
    have f4 := Xbmp.getD_take_drop s.data (s.pos + 4) 36 4 (by omega)
    have f5 := Xbmp.getD_take_drop s.data (s.pos + 4) 36 5 (by omega)
    have f6 := Xbmp.getD_take_drop s.data (s.pos + 4) 36 6 (by omega)
    have f7 := Xbmp.getD_take_drop s.data (s.pos + 4) 36 7 (by omega)
    have f8 := Xbmp.getD_take_drop s.data (s.pos + 4) 36 8 (by omega)
    have f9 := Xbmp.getD_take_drop s.data (s.pos + 4) 36 9 (by omega)
    have f10 := Xbmp.getD_take_drop s.data (s.pos + 4) 36 10 (by omega)
    have f11 := Xbmp.getD_take_drop s.data (s.pos + 4) 36 11 (by omega)
    have f12 := Xbmp.getD_take_drop s.data (s.pos + 4) 36 12 (by omega)
    have f13 := Xbmp.getD_take_drop s.data (s.pos + 4) 36 13 (by omega)
    have f14 := Xbmp.getD_take_drop s.data (s.pos + 4) 36 14 (by omega)
    have f15 := Xbmp.getD_take_drop s.data (s.pos + 4) 36 15 (by omega)
    simp only [f0, f1, f2, f3, f4, f5, f6, f7, f8, f9, f10, f11, f12, f13, f14, f15]
    simp [Xbmp.ByteStream.byteAt, Nat.add_assoc]

/-- Witness for C7: concrete 4-, 12- and 40-byte streams exercising the three
branches (tag 13 → format error; tag 12 → legacy fields, compression forced
to 0; tag 40 → modern fields, including a negative height). -/
theorem c7_header_branches_witness :
    (Xbmp.ByteStream.mk [13, 0, 0, 0] 0).pos + 4 ≤ 4 ∧
    Xbmp.readInfoHeader ⟨[13, 0, 0, 0], 0⟩ = .error .badHeader ∧
    Xbmp.readInfoHeader ⟨[12, 0, 0, 0, 3, 0, 5, 0, 1, 0, 8, 0], 0⟩ =
      .ok ({ size := 12, width := 3, height := 5, planes := 1, bitCount := 8,
             compression := 0 },
           ⟨[12, 0, 0, 0, 3, 0, 5, 0, 1, 0, 8, 0], 12⟩) ∧
    Xbmp.readInfoHeader
        ⟨[40, 0, 0, 0] ++ [2, 0, 0, 0] ++ [255, 255, 255, 255] ++ [1, 0] ++ [24, 0] ++
         [0, 0, 0, 0] ++ List.replicate 20 0, 0⟩ =
      .ok ({ size := 40, width := 2, height := -1, planes := 1, bitCount := 24,
             compression := 0 },
           ⟨[40, 0, 0, 0] ++ [2, 0, 0, 0] ++ [255, 255, 255, 255] ++ [1, 0] ++ [24, 0] ++
            [0, 0, 0, 0] ++ List.replicate 20 0, 40⟩) := by
  refine ⟨by decide, ?_, ?_, ?_⟩
  · rw [c7_header_branches.1 ⟨[13, 0, 0, 0], 0⟩ (by decide) (by decide) (by decide)]
  · rw [c7_header_branches.2.1 ⟨[12, 0, 0, 0, 3, 0, 5, 0, 1, 0, 8, 0], 0⟩
      (by decide) (by decide)]
    rfl
  · rw [c7_header_branches.2.2 _ (by decide) (by decide)]
    rfl

/-- Claim C8: palette resolution.  When bit depth > 8 and the color-used count
is zero, an empty palette is returned and no bytes are consumed.  Otherwise
exactly `colorUsed` entries (when nonzero) or `2^bitCount` entries are read,
each from 4 bytes in order blue, green, red, reserved — the reserved byte
discarded and alpha set to 255 — and a stream that ends mid-table yields an
I/O error. -/
theorem c8_palette_resolution :
    (∀ (s : Xbmp.ByteStream) (info : Xbmp.InfoHeader),
      8 < info.bitCount → info.clrUsed = 0 →
      Xbmp.parsePalette s info = .ok ([], s)) ∧
    (∀ info : Xbmp.InfoHeader,
      Xbmp.paletteEntries info =
        if 0 < info.clrUsed then info.clrUsed else 2 ^ info.bitCount) ∧
    (∀ (s : Xbmp.ByteStream) (info : Xbmp.InfoHeader),
      ¬(8 < info.bitCount ∧ info.clrUsed = 0) →
      s.pos + 4 * Xbmp.paletteEntries info ≤ s.data.length →
      Xbmp.parsePalette s info =
        .ok ((List.range (Xbmp.paletteEntries info)).map (fun i =>
               (⟨s.data.getD (s.pos + 4 * i + 2) 0, s.data.getD (s.pos + 4 * i + 1) 0,
                 s.data.getD (s.pos + 4 * i) 0, 255⟩ : Xbmp.Rgba)),
             ⟨s.data, s.pos + 4 * Xbmp.paletteEntries info⟩)) ∧
    (∀ (s : Xbmp.ByteStream) (info : Xbmp.InfoHeader),
      ¬(8 < info.bitCount ∧ info.clrUsed = 0) →
      s.data.length < s.pos + 4 * Xbmp.paletteEntries info →
      Xbmp.parsePalette s info = .error .ioError) := by
  refine ⟨?_, ?_, ?_, ?_⟩
  · intro s info h1 h2
    simp [Xbmp.parsePalette, h1, h2]
  · intro info
    simp [Xbmp.paletteEntries, Nat.one_shiftLeft]
  · intro s info hn hlen
    unfold Xbmp.parsePalette
    rw [if_neg hn]
    exact Xbmp.readPaletteEntries_ok _ s hlen
  · intro s info hn hlen
    have hpos : 1 ≤ Xbmp.paletteEntries info := by
      unfold Xbmp.paletteEntries
      split
      · omega
      · rw [Nat.one_shiftLeft]
        exact Nat.one_le_two_pow
    unfold Xbmp.parsePalette
    rw [if_neg hn]
    obtain ⟨m, hm⟩ : ∃ m, Xbmp.paletteEntries info = m + 1 :=
      ⟨Xbmp.paletteEntries info - 1, by omega⟩
    rw [hm] at hlen ⊢
    exact Xbmp.readPaletteEntries_short m s hlen

/-- Witness for C8: a 16-bit header with zero color-used count consumes
nothing; `paletteEntries` for 2-bit depth is 4; a 1-bit header with
`clrUsed = 1` reads exactly one BGR-reserved entry; a 1-byte stream is
mid-table truncation. -/
theorem c8_palette_resolution_witness :
    Xbmp.parsePalette ⟨[1, 2, 3], 5⟩ { bitCount := 16, clrUsed := 0 } =
      .ok ([], ⟨[1, 2, 3], 5⟩) ∧
    Xbmp.paletteEntries { bitCount := 2, clrUsed := 0 } = 4 ∧
    Xbmp.parsePalette ⟨[10, 20, 30, 40], 0⟩ { bitCount := 1, clrUsed := 1 } =
      .ok ([⟨30, 20, 10, 255⟩], ⟨[10, 20, 30, 40], 4⟩) ∧
    Xbmp.parsePalette ⟨[1], 0⟩ { bitCount := 1, clrUsed := 1 } = .error .ioError := by
  refine ⟨c8_palette_resolution.1 _ _ (by decide) (by decide), ?_, ?_,
    c8_palette_resolution.2.2.2 _ _ (by decide) (by decide)⟩
  · rw [c8_palette_resolution.2.1]
    decide
  · rw [c8_palette_resolution.2.2.1 _ _ (by decide) (by decide)]
    rfl

/-- Claim C9: for every positive width, each decoder's per-scanline byte count
is a multiple of 4 and equals `ceil(width*bitCount/32)*4` for indexed depths,
`ceil(width*2/4)*4` for 16-bit, `ceil(width*3/4)*4` for 24-bit, and `width*4`
for 32-bit (`⌈/⌉` is the ceiling division `Nat.ceilDiv`). -/
theorem c9_row_padding (w : Nat) (hw : 0 < w) :
    (∀ bc : Nat, Xbmp.bytesPerRowIndexed w bc = ((w * bc) ⌈/⌉ 32) * 4 ∧
      4 ∣ Xbmp.bytesPerRowIndexed w bc) ∧
    (Xbmp.bytesPerRow16 w = ((w * 2) ⌈/⌉ 4) * 4 ∧ 4 ∣ Xbmp.bytesPerRow16 w) ∧
    (Xbmp.bytesPerRow24 w = ((w * 3) ⌈/⌉ 4) * 4 ∧ 4 ∣ Xbmp.bytesPerRow24 w) ∧
    (Xbmp.bytesPerRow32 w = w * 4 ∧ 4 ∣ Xbmp.bytesPerRow32 w) := by
  refine ⟨fun bc => ⟨?_, ?_⟩, ⟨?_, ?_⟩, ⟨?_, ?_⟩, ⟨rfl, ?_⟩⟩
  · rw [Nat.ceilDiv_eq_add_pred_div, Xbmp.bytesPerRowIndexed,
      show w * bc + 32 - 1 = w * bc + 31 from by omega]
  · show 4 ∣ (w * bc + 31) / 32 * 4
    exact dvd_mul_left 4 _
  · rw [Nat.ceilDiv_eq_add_pred_div, Xbmp.bytesPerRow16,
      show w * 2 + 4 - 1 = w * 2 + 3 from by omega]
  · show 4 ∣ (w * 2 + 3) / 4 * 4
    exact dvd_mul_left 4 _
  · rw [Nat.ceilDiv_eq_add_pred_div, Xbmp.bytesPerRow24,
      show w * 3 + 4 - 1 = w * 3 + 3 from by omega]
  · show 4 ∣ (w * 3 + 3) / 4 * 4
    exact dvd_mul_left 4 _
  · show 4 ∣ w * 4
    exact dvd_mul_left 4 w

/-- Witness for C9 at width 3 (not a multiple of the natural alignment):
indexed 4-bit rows are 4 bytes, 16-bit rows 8 bytes, 24-bit rows 12 bytes,
32-bit rows 12 bytes. -/
theorem c9_row_padding_witness :
    0 < 3 ∧
    Xbmp.bytesPerRowIndexed 3 4 = ((3 * 4) ⌈/⌉ 32) * 4 ∧
    4 ∣ Xbmp.bytesPerRowIndexed 3 4 ∧
    Xbmp.bytesPerRow16 3 = ((3 * 2) ⌈/⌉ 4) * 4 ∧
    Xbmp.bytesPerRow24 3 = ((3 * 3) ⌈/⌉ 4) * 4 ∧
    Xbmp.bytesPerRow32 3 = 3 * 4 :=
  ⟨by decide, ((c9_row_padding 3 (by decide)).1 4).1, ((c9_row_padding 3 (by decide)).1 4).2,
   (c9_row_padding 3 (by decide)).2.1.1, (c9_row_padding 3 (by decide)).2.2.1.1,
   (c9_row_padding 3 (by decide)).2.2.2.1⟩

/-- Claim C10: indexed decoding never dereferences the palette.  The decode
succeeds for any palette whatsoever whenever enough pixel bytes are present
(so an extracted index ≥ palette length cannot cause a failure), the palette
is passed through unchanged, and the row writer stores the extracted index
verbatim into the output index buffer. -/
theorem c10_indexed_no_palette_deref :
    (∀ (s : Xbmp.ByteStream) (img : Xbmp.PalettedImg) (info : Xbmp.InfoHeader),
      s.pos + info.height.natAbs *
          Xbmp.bytesPerRowIndexed info.width.toNat info.bitCount ≤ s.data.length →
      (Xbmp.readIndexedData s img info).2.2 = none) ∧
    (∀ (s : Xbmp.ByteStream) (img : Xbmp.PalettedImg) (info : Xbmp.InfoHeader),
      (Xbmp.readIndexedData s img info).1.palette = img.palette) ∧
    (∀ (bc : Nat) (row : List Nat) (width ty : Nat) (img : Xbmp.PalettedImg) (x : Nat),
      x < width → x < img.width → ty < img.height →
      img.pix.length = img.width * img.height →
      (Xbmp.writeIndexedRow bc row width ty img).getIndex x ty =
        Xbmp.extractIndex bc row x) := by
  refine ⟨?_, ?_, ?_⟩
  · intro s img info hlen
    unfold Xbmp.readIndexedData
    exact Xbmp.readIndexedRows_err_none _ _ _ _ _ _ s img
      (by rw [List.length_range]; exact hlen)
  · intro s img info
    exact Xbmp.readIndexedRows_palette _ _ _ _ _ _ s img
  · intro bc row width ty img x h1 h2 h3 h4
    exact Xbmp.writeIndexedRow_getIndex bc row ty width img x h1 h2 h3 h4

/-- Witness for C10: an 8-bit 1×1 decode whose single index byte is 7 while
the palette is empty (so index 7 ≥ palette length 0) still yields no error,
keeps the empty palette, and the index 7 is stored verbatim. -/
theorem c10_indexed_no_palette_deref_witness :
    (0 : Nat) + (1 : Int).natAbs * Xbmp.bytesPerRowIndexed (1 : Int).toNat 8 ≤ 4 ∧
    (Xbmp.readIndexedData ⟨[7, 0, 0, 0], 0⟩ (Xbmp.newPaletted 1 1 [])
      { width := 1, height := 1, bitCount := 8 }).2.2 = none ∧
    (Xbmp.readIndexedData ⟨[7, 0, 0, 0], 0⟩ (Xbmp.newPaletted 1 1 [])
      { width := 1, height := 1, bitCount := 8 }).1.palette = [] ∧
    (Xbmp.writeIndexedRow 8 [7, 0, 0, 0] 1 0 (Xbmp.newPaletted 1 1 [])).getIndex 0 0 = 7 := by
  refine ⟨by decide, ?_, ?_, ?_⟩
  · exact c10_indexed_no_palette_deref.1 _ _ _ (by decide)
  · exact c10_indexed_no_palette_deref.2.1 _ _ _
  · rw [c10_indexed_no_palette_deref.2.2 8 [7, 0, 0, 0] 1 0 _ 0
      (by decide) (by decide) (by decide) (by decide)]
    decide
